import Mathlib

/-!
Shallow embedding of the dynamic resource-resolution and caching layer of the
Kubernetes MCP server (`pkg/k8s/client.go`), together with the generic CRUD /
list / describe / log operations built on top of it.

Backend surfaces (discovery, dynamic object surface, pod/log surface) are
modelled as explicit parameters; every operation additionally returns the list
of backend calls it issued, so that call-count properties can be stated.
-/

namespace K8s

/-- A parsed group/version pair, as produced by `schema.ParseGroupVersion`. -/
structure GroupVersion where
  group : String
  version : String
deriving Repr, DecidableEq

/-- The three-part locator (group, version, plural resource name) of
`schema.GroupVersionResource`. -/
structure GroupVersionResource where
  group : String
  version : String
  resource : String
deriving Repr, DecidableEq

/-- One API resource descriptor as returned by discovery: its plural `name`
and its `kind` (the two fields `getCachedGVR` reads). -/
structure APIResource where
  name : String
  kind : String
deriving Repr, DecidableEq

/-- One `metav1.APIResourceList`: a `groupVersion` string plus the resources
served under it. -/
structure APIResourceList where
  groupVersion : String
  apiResources : List APIResource
deriving Repr, DecidableEq

/-- Embedding of `schema.ParseGroupVersion` from k8s.io/apimachinery: the
empty string and "/" parse to the empty pair, a string without a slash is a
bare version, one slash splits group from version, more slashes are an
error. -/
def parseGroupVersion (gv : String) : Except String GroupVersion :=
  if gv.length == 0 || gv == "/" then
    .ok ⟨"", ""⟩
  else
    let cs := gv.toList
    match cs.count '/' with
    | 0 => .ok ⟨"", gv⟩
    | 1 =>
      let i := (cs.takeWhile (fun c => c != '/')).length
      .ok ⟨String.mk (cs.take i), String.mk (cs.drop (i + 1))⟩
    | _ => .error ("unexpected GroupVersion string: " ++ gv)

/-- Outcome of `discoveryClient.ServerPreferredResources()`: a full success, a
partial failure recognised by `discovery.IsGroupDiscoveryFailedError` (some
API groups failed but descriptor lists were still returned), or a total
failure. -/
inductive DiscoveryResult where
  | ok (lists : List APIResourceList)
  | groupsFailed (lists : List APIResourceList)
  | failed (msg : String)
deriving Repr, DecidableEq

/-- The descriptor lists a discovery outcome makes available, if any. -/
def DiscoveryResult.lists? : DiscoveryResult → Option (List APIResourceList)
  | .ok lists => some lists
  | .groupsFailed lists => some lists
  | .failed _ => none

/-- The error taxonomy of the client layer (spec §7), mapped from the
`fmt.Errorf` sites in `client.go`. -/
inductive K8sError where
  | discoveryUnavailable (msg : String)
  | resourceTypeNotFound (kind : String)
  | missingName
  | manifestParseError (msg : String)
  | backendError (msg : String)
  | logStreamError (msg : String)
deriving Repr, DecidableEq

/-- A backend call issued by an operation, recorded in order. A `none`
namespace means the cluster-scoped (non-namespaced) call path was taken. -/
inductive Call where
  | discovery
  | updateCall (gvr : GroupVersionResource) (ns : String) (name : String)
  | createCall (gvr : GroupVersionResource) (ns : String) (name : String)
  | getCall (gvr : GroupVersionResource) (ns : Option String) (name : String)
  | listCall (gvr : GroupVersionResource) (ns : Option String)
      (labelSelector : String) (fieldSelector : String)
deriving Repr, DecidableEq

/-- An `unstructured.Unstructured` object, reduced to the fields the client
layer inspects (`GetName`, `GetNamespace`/`SetNamespace`); the object itself
stands for its `UnstructuredContent()`. -/
structure Unstructured where
  name : String
  ns : String
deriving Repr, DecidableEq

/-- The mutable state of `Client`: the `apiResourceCache` map, modelled as an
association list keyed by kind (entries are only ever added on a miss, so a
cons is an exact model of the map write). -/
structure ClientState where
  apiResourceCache : List (String × GroupVersionResource)
deriving Repr, DecidableEq

/-- The fixed environment of one client: the discovery outcome and the
responses of the dynamic object surface, each a function of the full call
arguments. -/
structure World where
  discovery : DiscoveryResult
  updateObj : GroupVersionResource → String → Unstructured → Except String Unstructured
  createObj : GroupVersionResource → String → Unstructured → Except String Unstructured
  getObj : GroupVersionResource → Option String → String → Except String Unstructured
  listObjs : GroupVersionResource → Option String → String → String →
      Except String (List Unstructured)

/-- Inner loop of `getCachedGVR`: scan one descriptor list for a resource
whose `Kind` equals the requested kind. -/
def findInResources (kind : String) (gv : GroupVersion) :
    List APIResource → Option GroupVersionResource
  | [] => none
  | r :: rest =>
    if r.kind == kind then some ⟨gv.group, gv.version, r.name⟩
    else findInResources kind gv rest

/-- Outer loop of `getCachedGVR`: scan the descriptor lists in order,
skipping lists whose group/version string fails to parse. -/
def findGVR (kind : String) : List APIResourceList → Option GroupVersionResource
  | [] => none
  | l :: rest =>
    match parseGroupVersion l.groupVersion with
    | .error _ => findGVR kind rest
    | .ok gv =>
      match findInResources kind gv l.apiResources with
      | some gvr => some gvr
      | none => findGVR kind rest

/-- Embedding of `Client.getCachedGVR`: on a cache hit return the cached
locator with no backend call; on a miss call discovery (recorded in the
trace), fail only on a total discovery failure, scan the returned lists, and
on a match store the locator in the cache before returning it. -/
def getCachedGVR (w : World) (s : ClientState) (kind : String) :
    Except K8sError GroupVersionResource × ClientState × List Call :=
  match s.apiResourceCache.lookup kind with
  | some gvr => (.ok gvr, s, [])
  | none =>
    match w.discovery with
    | .failed msg =>
      (.error (.discoveryUnavailable ("failed to retrieve API resources: " ++ msg)), s,
        [.discovery])
    | .ok lists =>
      match findGVR kind lists with
      | some gvr => (.ok gvr, ⟨(kind, gvr) :: s.apiResourceCache⟩, [.discovery])
      | none => (.error (.resourceTypeNotFound kind), s, [.discovery])
    | .groupsFailed lists =>
      match findGVR kind lists with
      | some gvr => (.ok gvr, ⟨(kind, gvr) :: s.apiResourceCache⟩, [.discovery])
      | none => (.error (.resourceTypeNotFound kind), s, [.discovery])

/-- Embedding of `Client.GetResource`: resolve the locator through the cache,
then issue a namespaced get when the namespace argument is non-empty and a
cluster-scoped get otherwise, returning the object's content. -/
def getResource (w : World) (s : ClientState) (kind name ns : String) :
    Except K8sError Unstructured × ClientState × List Call :=
  match getCachedGVR w s kind with
  | (.error e, s2, tr) => (.error e, s2, tr)
  | (.ok gvr, s2, tr) =>
    let nsOpt := if ns != "" then some ns else none
    match w.getObj gvr nsOpt name with
    | .error msg =>
      (.error (.backendError ("failed to retrieve resource: " ++ msg)), s2,
        tr ++ [.getCall gvr nsOpt name])
    | .ok obj => (.ok obj, s2, tr ++ [.getCall gvr nsOpt name])

/-- Embedding of `Client.DescribeResource`, whose body in `client.go` is the
same as `GetResource`: resolve the locator through the cache, then issue a
namespaced or cluster-scoped get and return the object's content. -/
def describeResource (w : World) (s : ClientState) (kind name ns : String) :
    Except K8sError Unstructured × ClientState × List Call :=
  match getCachedGVR w s kind with
  | (.error e, s2, tr) => (.error e, s2, tr)
  | (.ok gvr, s2, tr) =>
    let nsOpt := if ns != "" then some ns else none
    match w.getObj gvr nsOpt name with
    | .error msg =>
      (.error (.backendError ("failed to retrieve resource: " ++ msg)), s2,
        tr ++ [.getCall gvr nsOpt name])
    | .ok obj => (.ok obj, s2, tr ++ [.getCall gvr nsOpt name])

/-- Embedding of `Client.ListResources`: resolve the locator, then issue a
list call — namespaced when the namespace argument is non-empty, cluster-wide
otherwise — passing both selector strings through verbatim, and return the
items' contents. -/
def listResources (w : World) (s : ClientState)
    (kind ns labelSelector fieldSelector : String) :
    Except K8sError (List Unstructured) × ClientState × List Call :=
  match getCachedGVR w s kind with
  | (.error e, s2, tr) => (.error e, s2, tr)
  | (.ok gvr, s2, tr) =>
    let nsOpt := if ns != "" then some ns else none
    match w.listObjs gvr nsOpt labelSelector fieldSelector with
    | .error msg =>
      (.error (.backendError ("failed to list resources: " ++ msg)), s2,
        tr ++ [.listCall gvr nsOpt labelSelector fieldSelector])
    | .ok items => (.ok items, s2, tr ++ [.listCall gvr nsOpt labelSelector fieldSelector])

/-- A manifest string, abstracted to the outcome of `json.Unmarshal` on it:
either malformed, or the object it denotes. -/
inductive Manifest where
  | malformed (msg : String)
  | wellFormed (obj : Unstructured)
deriving Repr, DecidableEq

/-- The `json.Unmarshal` step of `CreateOrUpdateResource`. -/
def parseManifest : Manifest → Except String Unstructured
  | .malformed msg => .error msg
  | .wellFormed obj => .ok obj

/-- The `obj.SetNamespace(namespace)` step of `CreateOrUpdateResource`: when
the namespace argument is non-empty it overrides the manifest's namespace. -/
def effectiveObj (ns : String) (obj : Unstructured) : Unstructured :=
  if ns != "" then { obj with ns := ns } else obj

/-- Embedding of `Client.CreateOrUpdateResource`: parse the manifest, resolve
the locator through the cache, force-set the namespace when supplied, reject
an empty object name, then attempt an update and, if the update returned any
error, attempt a create; a create failure is the error propagated. -/
def createOrUpdateResource (w : World) (s : ClientState) (kind ns : String)
    (manifest : Manifest) :
    Except K8sError Unstructured × ClientState × List Call :=
  match parseManifest manifest with
  | .error msg => (.error (.manifestParseError ("failed to parse resource manifest: " ++ msg)), s, [])
  | .ok obj0 =>
    match getCachedGVR w s kind with
    | (.error e, s2, tr) => (.error e, s2, tr)
    | (.ok gvr, s2, tr) =>
      let obj := effectiveObj ns obj0
      if obj.name == "" then
        (.error .missingName, s2, tr)
      else
        match w.updateObj gvr obj.ns obj with
        | .ok result => (.ok result, s2, tr ++ [.updateCall gvr obj.ns obj.name])
        | .error _ =>
          match w.createObj gvr obj.ns obj with
          | .ok result =>
            (.ok result, s2,
              tr ++ [.updateCall gvr obj.ns obj.name, .createCall gvr obj.ns obj.name])
          | .error msg =>
            (.error (.backendError ("failed to create or update resource: " ++ msg)), s2,
              tr ++ [.updateCall gvr obj.ns obj.name, .createCall gvr obj.ns obj.name])

/-- Result of opening and draining one container log stream: the stream
failed to open (`req.Stream` errored), opened but reading failed (`io.Copy`
errored), or yielded its content. -/
inductive StreamResult where
  | openFailed (msg : String)
  | readFailed (msg : String)
  | content (text : String)
deriving Repr, DecidableEq

/-- A pod, reduced to what `GetPodsLogs` inspects: its spec's container
names. -/
structure Pod where
  containers : List String
deriving Repr, DecidableEq

/-- The typed core surface used by `GetPodsLogs`: pod lookup by namespace and
name, and the log stream for a pod, keyed by the optional container name (a
`none` container means the request did not set one). -/
structure PodBackend where
  getPod : String → String → Except String Pod
  logStream : String → String → Option String → StreamResult

/-- One iteration of the multi-container loop of `GetPodsLogs`: the text
appended to the builder for one container — an inline error marker when the
stream fails to open, otherwise the per-container header followed by the
content or by an inline read-error line. -/
def containerSection (b : PodBackend) (ns podName cname : String) : String :=
  match b.logStream ns podName (some cname) with
  | .openFailed msg =>
    "\n--- Error getting logs for container " ++ cname ++ ": " ++ msg ++ " ---\n"
  | .readFailed msg =>
    "\n--- Logs for container " ++ cname ++ " ---\n" ++ ("Error reading logs: " ++ msg ++ "\n")
  | .content text =>
    "\n--- Logs for container " ++ cname ++ " ---\n" ++ text

/-- The multi-container loop of `GetPodsLogs`: sequential concatenation of
every container's section. -/
def multiContainerLogs (b : PodBackend) (ns podName : String) : List String → String
  | [] => ""
  | c :: rest => containerSection b ns podName c ++ multiContainerLogs b ns podName rest

/-- Embedding of `Client.GetPodsLogs`: with a container name, stream that
container's logs and fail on a stream error; without one, fetch the pod, and
if its spec has exactly one container stream without a container selector,
otherwise concatenate every container's section, tolerating per-container
failures. -/
def getPodsLogs (b : PodBackend) (ns containerName podName : String) :
    Except K8sError String :=
  if containerName != "" then
    match b.logStream ns podName (some containerName) with
    | .openFailed msg =>
      .error (.logStreamError ("failed to get logs for container " ++ containerName ++ ": " ++ msg))
    | .readFailed msg => .error (.logStreamError ("failed to read logs: " ++ msg))
    | .content text => .ok text
  else
    match b.getPod ns podName with
    | .error msg => .error (.backendError ("failed to get pod details: " ++ msg))
    | .ok pod =>
      if pod.containers.length == 1 then
        match b.logStream ns podName none with
        | .openFailed msg => .error (.logStreamError ("failed to get logs: " ++ msg))
        | .readFailed msg => .error (.logStreamError ("failed to read logs: " ++ msg))
        | .content text => .ok text
      else
        .ok (multiContainerLogs b ns podName pod.containers)

/-- Fixture: a discovery payload with apps/v1 deployments and core v1 pods. -/
def exLists : List APIResourceList :=
  [⟨"apps/v1", [⟨"deployments", "Deployment"⟩]⟩, ⟨"v1", [⟨"pods", "Pod"⟩]⟩]

/-- The locator the fixture payload yields for kind "Pod". -/
def podGVR : GroupVersionResource := ⟨"", "v1", "pods"⟩

/-- Fixture world: healthy discovery over `exLists`; the update surface only
accepts the object named "exists", the create surface rejects only the object
named "conflict". -/
def exWorld : World where
  discovery := .ok exLists
  updateObj := fun _ _ obj => if obj.name == "exists" then .ok obj else .error "not found"
  createObj := fun _ _ obj =>
    if obj.name == "conflict" then .error "already exists" else .ok obj
  getObj := fun _ nsOpt name => .ok ⟨name, nsOpt.getD ""⟩
  listObjs := fun _ _ _ _ => .ok []

/-- Fixture world whose discovery reports a partial group failure but still
returns `exLists`. -/
def exGroupsFailedWorld : World :=
  { exWorld with discovery := .groupsFailed exLists }

/-- Fixture world whose discovery fails entirely. -/
def exFailedWorld : World :=
  { exWorld with discovery := .failed "connection refused" }

/-- Fixture pod backend: pod "multi" has containers "good" (healthy stream)
and "bad" (stream fails to open); pod "empty" has no containers. -/
def exPodBackend : PodBackend where
  getPod := fun _ p =>
    if p == "multi" then .ok ⟨["good", "bad"]⟩
    else if p == "empty" then .ok ⟨[]⟩
    else .error "pod not found"
  logStream := fun _ _ c =>
    match c with
    | some "good" => .content "hello from good"
    | some "bad" => .openFailed "boom"
    | _ => .content "default logs"

/-- The invariant of C3: every cache entry is exactly what the discovery
scan yields for its key, under the fixed discovery outcome of `w`. -/
def goodCache (w : World) (s : ClientState) : Prop :=
  ∀ k gvr, (k, gvr) ∈ s.apiResourceCache →
    ∃ lists, w.discovery.lists? = some lists ∧ findGVR k lists = some gvr

/-- Exhaustive description of `getCachedGVR`: a cache hit returns the cached
locator with no calls; otherwise one discovery call happens and the outcome
follows the discovery result and the scan. -/
theorem getCachedGVR_cases (w : World) (s : ClientState) (kind : String) :
    (∃ gvr, s.apiResourceCache.lookup kind = some gvr ∧
      getCachedGVR w s kind = (.ok gvr, s, [])) ∨
    (s.apiResourceCache.lookup kind = none ∧
      ((∃ msg, w.discovery = .failed msg ∧
        getCachedGVR w s kind =
          (.error (.discoveryUnavailable ("failed to retrieve API resources: " ++ msg)), s,
            [.discovery])) ∨
      (∃ lists, w.discovery.lists? = some lists ∧
        ((∃ gvr, findGVR kind lists = some gvr ∧
          getCachedGVR w s kind =
            (.ok gvr, ⟨(kind, gvr) :: s.apiResourceCache⟩, [.discovery])) ∨
        (findGVR kind lists = none ∧
          getCachedGVR w s kind =
            (.error (.resourceTypeNotFound kind), s, [.discovery])))))) := by
  cases hl : s.apiResourceCache.lookup kind with
  | some gvr =>
    exact Or.inl ⟨gvr, rfl, by simp only [getCachedGVR, hl]⟩
  | none =>
    refine Or.inr ⟨rfl, ?_⟩
    cases hd : w.discovery with
    | failed msg =>
      exact Or.inl ⟨msg, rfl, by simp only [getCachedGVR, hl, hd]⟩
    | ok lists =>
      refine Or.inr ⟨lists, rfl, ?_⟩
      cases hf : findGVR kind lists with
      | some gvr =>
        exact Or.inl ⟨gvr, rfl, by simp only [getCachedGVR, hl, hd, hf]⟩
      | none =>
        exact Or.inr ⟨rfl, by simp only [getCachedGVR, hl, hd, hf]⟩
    | groupsFailed lists =>
      refine Or.inr ⟨lists, rfl, ?_⟩
      cases hf : findGVR kind lists with
      | some gvr =>
        exact Or.inl ⟨gvr, rfl, by simp only [getCachedGVR, hl, hd, hf]⟩
      | none =>
        exact Or.inr ⟨rfl, by simp only [getCachedGVR, hl, hd, hf]⟩

/-- A cache hit short-circuits `getCachedGVR`: the cached locator is returned
unchanged with no backend call. -/
theorem getCachedGVR_of_lookup (w : World) (s : ClientState) (kind : String)
    (gvr : GroupVersionResource) (hl : s.apiResourceCache.lookup kind = some gvr) :
    getCachedGVR w s kind = (.ok gvr, s, []) := by
  unfold getCachedGVR
  rw [hl]

/-- A successful resolve leaves its kind cached with the returned locator. -/
theorem getCachedGVR_ok_lookup (w : World) (s s2 : ClientState) (T : String)
    (gvr : GroupVersionResource) (tr : List Call)
    (h : getCachedGVR w s T = (.ok gvr, s2, tr)) :
    s2.apiResourceCache.lookup T = some gvr := by
  rcases getCachedGVR_cases w s T with ⟨g, hl, he⟩ |
    ⟨hl, ⟨msg, hd, he⟩ | ⟨lists, hds, ⟨g, hf, he⟩ | ⟨hf, he⟩⟩⟩
  · rw [he] at h
    simp only [Prod.mk.injEq, Except.ok.injEq] at h
    obtain ⟨rfl, rfl, rfl⟩ := h
    exact hl
  · rw [he] at h
    injection h with h1 _
    exact Except.noConfusion h1
  · rw [he] at h
    simp only [Prod.mk.injEq, Except.ok.injEq] at h
    obtain ⟨rfl, rfl, rfl⟩ := h
    simp [List.lookup]
  · rw [he] at h
    injection h with h1 _
    exact Except.noConfusion h1

/-- C2: once a resolve of a type name T has succeeded, resolving T again
returns the cached locator, leaves the state unchanged, and issues no further
discovery call (the call trace of the second resolve is empty). -/
theorem resolve_cache_hit_no_second_discovery (w : World) (s s2 : ClientState)
    (T : String) (gvr : GroupVersionResource) (tr : List Call)
    (h : getCachedGVR w s T = (.ok gvr, s2, tr)) :
    getCachedGVR w s2 T = (.ok gvr, s2, []) :=
  getCachedGVR_of_lookup w s2 T gvr (getCachedGVR_ok_lookup w s s2 T gvr tr h)

/-- Witness for C2 on the fixture: resolving "Pod" once populates the cache,
and the second resolve returns the cached locator with an empty trace. -/
theorem resolve_cache_hit_no_second_discovery_witness :
    getCachedGVR exWorld ⟨[("Pod", podGVR)]⟩ "Pod" =
      (.ok podGVR, ⟨[("Pod", podGVR)]⟩, []) :=
  resolve_cache_hit_no_second_discovery exWorld ⟨[]⟩ ⟨[("Pod", podGVR)]⟩ "Pod" podGVR
    [.discovery] rfl

/-- C3: a failed resolve leaves the cache untouched, and resolving any kind
preserves the invariant that each cache entry equals the successful discovery
scan result for exactly its key. -/
theorem cache_only_successful_resolutions (w : World) (s : ClientState) (T : String) :
    (∀ e s2 tr, getCachedGVR w s T = (.error e, s2, tr) →
      s2.apiResourceCache = s.apiResourceCache) ∧
    (goodCache w s → goodCache w (getCachedGVR w s T).2.1) := by
  rcases getCachedGVR_cases w s T with ⟨g, hl, he⟩ |
    ⟨hl, ⟨msg, hd, he⟩ | ⟨lists, hds, ⟨g, hf, he⟩ | ⟨hf, he⟩⟩⟩
  · constructor
    · intro e s2 tr h
      rw [he] at h
      injection h with h1 _
      exact Except.noConfusion h1
    · rw [he]
      exact fun hg => hg
  · constructor
    · intro e s2 tr h
      rw [he] at h
      simp only [Prod.mk.injEq] at h
      rw [← h.2.1]
    · rw [he]
      exact fun hg => hg
  · constructor
    · intro e s2 tr h
      rw [he] at h
      injection h with h1 _
      exact Except.noConfusion h1
    · rw [he]
      intro hg k gvr hmem
      rcases List.mem_cons.mp hmem with heq | hold
      · injection heq with hk hg2
        subst hk
        subst hg2
        exact ⟨lists, hds, hf⟩
      · exact hg k gvr hold
  · constructor
    · intro e s2 tr h
      rw [he] at h
      simp only [Prod.mk.injEq] at h
      rw [← h.2.1]
    · rw [he]
      exact fun hg => hg

/-- Witness for C3 on the fixture: the failed resolve of the unknown kind
"Nope" leaves the empty cache empty, and resolving "Pod" from the empty cache
yields a cache satisfying the invariant. -/
theorem cache_only_successful_resolutions_witness :
    (ClientState.mk []).apiResourceCache = (ClientState.mk []).apiResourceCache ∧
    goodCache exWorld (getCachedGVR exWorld ⟨[]⟩ "Pod").2.1 :=
  ⟨(cache_only_successful_resolutions exWorld ⟨[]⟩ "Nope").1
      (.resourceTypeNotFound "Nope") ⟨[]⟩ [.discovery] rfl,
   (cache_only_successful_resolutions exWorld ⟨[]⟩ "Pod").2
      (fun _ _ h => absurd h (List.not_mem_nil _))⟩

/-- C5: a partial-group discovery failure is tolerated — a matching kind among
the returned descriptors still resolves and is cached — and the
DiscoveryUnavailable error can only arise from a total discovery failure. -/
theorem partial_discovery_tolerated (w : World) (s : ClientState) (T : String) :
    (∀ lists gvr, w.discovery = .groupsFailed lists →
      s.apiResourceCache.lookup T = none →
      findGVR T lists = some gvr →
      getCachedGVR w s T = (.ok gvr, ⟨(T, gvr) :: s.apiResourceCache⟩, [.discovery])) ∧
    (∀ msg s2 tr,
      getCachedGVR w s T = (.error (.discoveryUnavailable msg), s2, tr) →
      ∃ m, w.discovery = .failed m) := by
  constructor
  · intro lists gvr hd hl hf
    simp only [getCachedGVR, hl, hd, hf]
  · intro msg s2 tr h
    rcases getCachedGVR_cases w s T with ⟨g, hl, he⟩ |
      ⟨hl, ⟨m, hd, he⟩ | ⟨lists, hds, ⟨g, hf, he⟩ | ⟨hf, he⟩⟩⟩
    · rw [he] at h
      injection h with h1 _
      exact Except.noConfusion h1
    · exact ⟨m, hd⟩
    · rw [he] at h
      injection h with h1 _
      exact Except.noConfusion h1
    · rw [he] at h
      injection h with h1 _
      injection h1 with h1
      exact K8sError.noConfusion h1

/-- Witness for C5 on the fixture: with a partial-group discovery failure,
"Pod" still resolves successfully and populates the cache. -/
theorem partial_discovery_tolerated_witness :
    getCachedGVR exGroupsFailedWorld ⟨[]⟩ "Pod" =
      (.ok podGVR, ⟨[("Pod", podGVR)]⟩, [.discovery]) :=
  (partial_discovery_tolerated exGroupsFailedWorld ⟨[]⟩ "Pod").1 exLists podGVR rfl rfl rfl

/-- C6: DescribeResource and GetResource compute the same result — the same
object or error, the same state, and the same backend calls — on every kind,
name, namespace, state and backend. -/
theorem describeResource_eq_getResource (w : World) (s : ClientState)
    (kind name ns : String) :
    describeResource w s kind name ns = getResource w s kind name ns := rfl

/-- C4: after a successful parse, name check and resolution, the update is
attempted first; the create follows exactly when the update returned an error
(any error); a successful fallback create succeeds the whole operation; and
when both fail, the create's error is the one propagated. -/
theorem createOrUpdate_update_then_create (w : World) (s s2 : ClientState)
    (kind ns : String) (m : Manifest) (obj0 : Unstructured)
    (gvr : GroupVersionResource) (tr : List Call)
    (hp : parseManifest m = .ok obj0)
    (hres : getCachedGVR w s kind = (.ok gvr, s2, tr))
    (hname : ¬ (effectiveObj ns obj0).name = "") :
    (∀ r, w.updateObj gvr (effectiveObj ns obj0).ns (effectiveObj ns obj0) = .ok r →
      createOrUpdateResource w s kind ns m =
        (.ok r, s2,
          tr ++ [.updateCall gvr (effectiveObj ns obj0).ns (effectiveObj ns obj0).name])) ∧
    (∀ msg r,
      w.updateObj gvr (effectiveObj ns obj0).ns (effectiveObj ns obj0) = .error msg →
      w.createObj gvr (effectiveObj ns obj0).ns (effectiveObj ns obj0) = .ok r →
      createOrUpdateResource w s kind ns m =
        (.ok r, s2,
          tr ++ [.updateCall gvr (effectiveObj ns obj0).ns (effectiveObj ns obj0).name,
            .createCall gvr (effectiveObj ns obj0).ns (effectiveObj ns obj0).name])) ∧
    (∀ msg1 msg2,
      w.updateObj gvr (effectiveObj ns obj0).ns (effectiveObj ns obj0) = .error msg1 →
      w.createObj gvr (effectiveObj ns obj0).ns (effectiveObj ns obj0) = .error msg2 →
      createOrUpdateResource w s kind ns m =
        (.error (.backendError ("failed to create or update resource: " ++ msg2)), s2,
          tr ++ [.updateCall gvr (effectiveObj ns obj0).ns (effectiveObj ns obj0).name,
            .createCall gvr (effectiveObj ns obj0).ns (effectiveObj ns obj0).name])) := by
  have hn : ((effectiveObj ns obj0).name == "") = false := beq_eq_false_iff_ne.mpr hname
  refine ⟨?_, ?_, ?_⟩
  · intro r hu
    simp only [createOrUpdateResource, hp, hres, hn, hu]
    rfl
  · intro msg r hu hc
    simp only [createOrUpdateResource, hp, hres, hn, hu, hc]
    rfl
  · intro msg1 msg2 hu hc
    simp only [createOrUpdateResource, hp, hres, hn, hu, hc]
    rfl

/-- Witness for C4 on the fixture: for the object "fresh" the update surface
errors and the fallback create succeeds, so the operation succeeds after an
update call followed by a create call. -/
theorem createOrUpdate_update_then_create_witness :
    createOrUpdateResource exWorld ⟨[]⟩ "Pod" "default" (.wellFormed ⟨"fresh", ""⟩) =
      (.ok ⟨"fresh", "default"⟩, ⟨[("Pod", podGVR)]⟩,
        [.discovery, .updateCall podGVR "default" "fresh",
          .createCall podGVR "default" "fresh"]) :=
  (createOrUpdate_update_then_create exWorld ⟨[]⟩ ⟨[("Pod", podGVR)]⟩ "Pod" "default"
      (.wellFormed ⟨"fresh", ""⟩) ⟨"fresh", ""⟩ podGVR [.discovery] rfl rfl
      (by decide)).2.1 "not found" ⟨"fresh", "default"⟩ rfl rfl

/-- C1 counterexample: from an empty cache, a manifest whose object has an
empty name still triggers a discovery network call — the call trace of the
MissingName failure is nonempty — contradicting "fails before any network
call regardless of whether the type name is already cached". -/
theorem createOrUpdate_missing_name_counterexample :
    createOrUpdateResource exWorld ⟨[]⟩ "Pod" "" (.wellFormed ⟨"", "default"⟩) =
      (.error .missingName, ⟨[("Pod", podGVR)]⟩, [.discovery]) ∧
    [Call.discovery] ≠ ([] : List Call) :=
  ⟨rfl, by decide⟩

/-- The call trace of one locator resolution is empty on a cache hit and a
single discovery call otherwise. -/
theorem getCachedGVR_trace_discovery (w : World) (s s2 : ClientState) (kind : String)
    (r : Except K8sError GroupVersionResource) (tr : List Call)
    (h : getCachedGVR w s kind = (r, s2, tr)) :
    tr = [] ∨ tr = [Call.discovery] := by
  rcases getCachedGVR_cases w s kind with ⟨g, hl, he⟩ |
    ⟨hl, ⟨msg, hd, he⟩ | ⟨lists, hds, ⟨g, hf, he⟩ | ⟨hf, he⟩⟩⟩
  · rw [he] at h
    injection h with _ h2
    injection h2 with _ h3
    exact Or.inl h3.symm
  · rw [he] at h
    injection h with _ h2
    injection h2 with _ h3
    exact Or.inr h3.symm
  · rw [he] at h
    injection h with _ h2
    injection h2 with _ h3
    exact Or.inr h3.symm
  · rw [he] at h
    injection h with _ h2
    injection h2 with _ h3
    exact Or.inr h3.symm

/-- C1 amended: an empty object name makes createOrUpdateResource fail with
MissingName before any update or create call — the trace holds at most the
locator resolution's single discovery call — and when the type name is
already cached the trace is empty, so no network call at all precedes the
failure. -/
theorem createOrUpdate_missing_name (w : World) (s s2 : ClientState)
    (kind ns : String) (m : Manifest) (obj0 : Unstructured)
    (gvr : GroupVersionResource) (tr : List Call)
    (hp : parseManifest m = .ok obj0)
    (hres : getCachedGVR w s kind = (.ok gvr, s2, tr))
    (hname : (effectiveObj ns obj0).name = "") :
    createOrUpdateResource w s kind ns m = (.error .missingName, s2, tr) ∧
    (∀ c ∈ tr, c = Call.discovery) ∧
    (s.apiResourceCache.lookup kind = some gvr → tr = []) := by
  have hn : ((effectiveObj ns obj0).name == "") = true := beq_iff_eq.mpr hname
  refine ⟨?_, ?_, ?_⟩
  · simp only [createOrUpdateResource, hp, hres, hn, if_true]
  · intro c hc
    rcases getCachedGVR_trace_discovery w s s2 kind (.ok gvr) tr hres with rfl | rfl
    · exact absurd hc (List.not_mem_nil c)
    · exact List.mem_singleton.mp hc
  · intro hl
    have hcached := getCachedGVR_of_lookup w s kind gvr hl
    rw [hcached] at hres
    injection hres with _ h2
    injection h2 with _ h3
    exact h3.symm

/-- Witness for C1 amended on the fixture: with "Pod" already cached, the
empty-name manifest fails with MissingName and an empty call trace. -/
theorem createOrUpdate_missing_name_witness :
    createOrUpdateResource exWorld ⟨[("Pod", podGVR)]⟩ "Pod" ""
      (.wellFormed ⟨"", "default"⟩) =
      (.error .missingName, ⟨[("Pod", podGVR)]⟩, []) :=
  (createOrUpdate_missing_name exWorld ⟨[("Pod", podGVR)]⟩ ⟨[("Pod", podGVR)]⟩ "Pod" ""
    (.wellFormed ⟨"", "default"⟩) ⟨"", "default"⟩ podGVR [] rfl rfl rfl).1

/-- C7: with a resolved locator, a backend list call returning zero items
yields an empty sequence and no error; an empty namespace argument issues the
cluster-wide list call and a non-empty namespace the namespaced one, with the
selector strings passed through verbatim. -/
theorem listResources_empty_ok_and_scope (w : World) (s s2 : ClientState)
    (kind ns labelSelector fieldSelector : String) (gvr : GroupVersionResource)
    (tr : List Call)
    (hres : getCachedGVR w s kind = (.ok gvr, s2, tr)) :
    (w.listObjs gvr (if ns != "" then some ns else none) labelSelector fieldSelector =
        .ok [] →
      listResources w s kind ns labelSelector fieldSelector =
        (.ok [], s2,
          tr ++ [.listCall gvr (if ns != "" then some ns else none) labelSelector
            fieldSelector])) ∧
    (ns = "" → ∃ r, listResources w s kind ns labelSelector fieldSelector =
      (r, s2, tr ++ [.listCall gvr none labelSelector fieldSelector])) ∧
    (ns ≠ "" → ∃ r, listResources w s kind ns labelSelector fieldSelector =
      (r, s2, tr ++ [.listCall gvr (some ns) labelSelector fieldSelector])) := by
  refine ⟨?_, ?_, ?_⟩
  · intro hl
    simp only [listResources, hres, hl]
  · intro hns
    subst hns
    cases hl : w.listObjs gvr none labelSelector fieldSelector with
    | error msg =>
      exact ⟨.error (.backendError ("failed to list resources: " ++ msg)),
        by simp only [listResources, hres]; simp [hl]⟩
    | ok items =>
      exact ⟨.ok items, by simp only [listResources, hres]; simp [hl]⟩
  · intro hns
    have hb : (ns != "") = true := bne_iff_ne.mpr hns
    cases hl : w.listObjs gvr (some ns) labelSelector fieldSelector with
    | error msg =>
      exact ⟨.error (.backendError ("failed to list resources: " ++ msg)),
        by simp only [listResources, hres, hb]; simp [hl]⟩
    | ok items =>
      exact ⟨.ok items, by simp only [listResources, hres, hb]; simp [hl]⟩

/-- Witness for C7 on the fixture: listing "Pod" with an empty namespace and a
backend returning zero items yields the empty sequence after a cluster-wide
list call. -/
theorem listResources_empty_ok_and_scope_witness :
    listResources exWorld ⟨[]⟩ "Pod" "" "app=x" "" =
      (.ok [], ⟨[("Pod", podGVR)]⟩, [.discovery, .listCall podGVR none "app=x" ""]) :=
  (listResources_empty_ok_and_scope exWorld ⟨[]⟩ ⟨[("Pod", podGVR)]⟩ "Pod" "" "app=x" ""
    podGVR [.discovery] rfl).1 rfl

/-- The multi-container concatenation splits at any member container: the
whole text is some prefix text, then that container's section, then some
suffix text. -/
theorem multiContainerLogs_mem (b : PodBackend) (ns podName : String)
    (l : List String) (c : String) (hc : c ∈ l) :
    ∃ pre post, multiContainerLogs b ns podName l =
      pre ++ (containerSection b ns podName c ++ post) := by
  induction l with
  | nil => exact absurd hc (List.not_mem_nil c)
  | cons x rest ih =>
    rcases List.mem_cons.mp hc with rfl | hmem
    · exact ⟨"", multiContainerLogs b ns podName rest, rfl⟩
    · obtain ⟨pre, post, hpp⟩ := ih hmem
      refine ⟨containerSection b ns podName x ++ pre, post, ?_⟩
      show containerSection b ns podName x ++ multiContainerLogs b ns podName rest = _
      rw [hpp]
      exact (String.append_assoc _ _ _).symm

/-- C8: without a container name, a pod with more than one container yields a
successful result whose text holds, for each container with a healthy stream,
that container's content under its header, and for each container whose
stream failed to open, an inline error marker — the call as a whole returns
no error. -/
theorem getLogs_multi_partial_failure (b : PodBackend) (ns podName : String)
    (pod : Pod)
    (hpod : b.getPod ns podName = .ok pod)
    (hmulti : 1 < pod.containers.length) :
    getPodsLogs b ns "" podName =
      .ok (multiContainerLogs b ns podName pod.containers) ∧
    (∀ c ∈ pod.containers, ∀ text, b.logStream ns podName (some c) = .content text →
      ∃ pre post, multiContainerLogs b ns podName pod.containers =
        pre ++ (("\n--- Logs for container " ++ c ++ " ---\n" ++ text) ++ post)) ∧
    (∀ c ∈ pod.containers, ∀ msg, b.logStream ns podName (some c) = .openFailed msg →
      ∃ pre post, multiContainerLogs b ns podName pod.containers =
        pre ++ (("\n--- Error getting logs for container " ++ c ++ ": " ++ msg ++ " ---\n")
          ++ post)) := by
  have h1 : (pod.containers.length == 1) = false :=
    beq_eq_false_iff_ne.mpr (ne_of_gt hmulti)
  refine ⟨?_, ?_, ?_⟩
  · simp only [getPodsLogs, hpod, h1]
    rfl
  · intro c hc text hst
    obtain ⟨pre, post, hpp⟩ := multiContainerLogs_mem b ns podName pod.containers c hc
    refine ⟨pre, post, ?_⟩
    rw [hpp]
    simp only [containerSection, hst]
  · intro c hc msg hst
    obtain ⟨pre, post, hpp⟩ := multiContainerLogs_mem b ns podName pod.containers c hc
    refine ⟨pre, post, ?_⟩
    rw [hpp]
    simp only [containerSection, hst]

/-- Witness for C8 on the fixture: pod "multi" has a healthy container "good"
and a container "bad" whose stream fails to open; the call succeeds and its
text holds the healthy content under its header and the inline error marker
for the failed container. -/
theorem getLogs_multi_partial_failure_witness :
    getPodsLogs exPodBackend "default" "" "multi" =
      .ok ("\n--- Logs for container good ---\nhello from good" ++
        "\n--- Error getting logs for container bad: boom ---\n") :=
  ((getLogs_multi_partial_failure exPodBackend "default" "multi" ⟨["good", "bad"]⟩ rfl
    (by decide)).1).trans (by rfl)

/-- C10: without a container name, a pod whose spec lists zero containers
yields empty text and no error — the single-container branch is not taken and
the per-container loop contributes nothing. -/
theorem getLogs_zero_containers (b : PodBackend) (ns podName : String) (pod : Pod)
    (hpod : b.getPod ns podName = .ok pod)
    (hzero : pod.containers = []) :
    getPodsLogs b ns "" podName = .ok "" := by
  have h1 : (pod.containers.length == 1) = false := by
    rw [hzero]
    rfl
  simp only [getPodsLogs, hpod, h1, hzero]
  rfl

/-- Witness for C10 on the fixture: pod "empty" has no containers and the
call returns empty text successfully. -/
theorem getLogs_zero_containers_witness :
    getPodsLogs exPodBackend "default" "" "empty" = .ok "" :=
  getLogs_zero_containers exPodBackend "default" "empty" ⟨[]⟩ rfl rfl

end K8s
